import Mathlib

/-!
Shallow embedding of the infrastructure-resolution and throttling engine:
the sliding-window rate limiter (services/rate_limiter.py) and the DNS
resolution fan-out and aggregation (services/ip_resolver.py).

Modelling conventions:
* Python float timestamps are modelled as exact rationals.
* Python int() truncation toward zero is pyTrunc.
* A Python method that mutates the limiter and returns a value is modelled
  as a function returning a (value, new state) pair.
* An exception escaping a call is modelled by the PyResult.raise_ case.
* The DNS environment (socket.getaddrinfo) is an oracle parameter mapping
  a hostname and timeout to an outcome: a list of raw address strings, or
  one of the three caught failure kinds.
-/

/-- Python int() truncation toward zero on an exact rational value. -/
def pyTrunc (x : ℚ) : ℤ := if 0 ≤ x then ⌊x⌋ else ⌈x⌉

/-- Exceptions that can escape the modelled code paths. -/
inductive PyErr where
  | stopIteration
  | indexError
deriving DecidableEq, Repr

/-- Result of a Python call: a normal return value or an escaped exception. -/
inductive PyResult (α : Type) where
  | ok (val : α)
  | raise_ (err : PyErr)
deriving DecidableEq, Repr

/-- Outcome of RateLimiter.check_rate_limit: admitted, or denied by the
minute window or the hour window.  A denial carries the computed wait in
whole seconds and the usage counts interpolated into the returned message
string (the hour denial also carries the wait in whole minutes, as shown
in its message). -/
inductive RLResult where
  | allow
  | denyMinute (wait_seconds : ℤ) (queries_last_minute queries_last_hour : ℕ)
  | denyHour (wait_seconds wait_minutes : ℤ) (queries_last_hour : ℕ)
deriving DecidableEq, Repr

/-- The allowed component of the returned tuple. -/
def RLResult.allowed : RLResult → Bool
  | .allow => true
  | .denyMinute _ _ _ => false
  | .denyHour _ _ _ => false

/-- The wait time carried by a denial, none for an admission. -/
def RLResult.waitSeconds : RLResult → Option ℤ
  | .allow => none
  | .denyMinute w _ _ => some w
  | .denyHour w _ _ => some w

/-- State of the in-memory rate limiter.  user_queries models the
defaultdict of per-user timestamp deques as a total function: an absent
user is the empty sequence. -/
structure RateLimiter where
  max_per_minute : ℕ
  max_per_hour : ℕ
  admin_user_ids : List ℤ
  user_queries : ℤ → List ℚ

/-- Membership test of the admin bypass set. -/
def RateLimiter.is_admin (rl : RateLimiter) (user_id : ℤ) : Bool :=
  decide (user_id ∈ rl.admin_user_ids)

/-- The purge loop of check_rate_limit: pop timestamps from the front
while the front entry is more than 3600 seconds old. -/
def purgeOld (current_time : ℚ) : List ℚ → List ℚ
  | [] => []
  | t :: rest => if 3600 < current_time - t then purgeOld current_time rest else t :: rest

/-- Decision logic of check_rate_limit after the purge, over the retained
timestamp sequence.  Mirrors the source line by line: the minute count is
the number of retained entries at or after current_time - 60; the hour
count is the whole retained sequence; the minute denial takes the first
entry of the reversed sequence inside the minute window (next over
reversed, StopIteration when there is none); the hour denial takes the
front entry (IndexError when the sequence is empty). -/
def rateDecision (max_per_minute max_per_hour : ℕ) (current_time : ℚ)
    (user_timestamps : List ℚ) : PyResult RLResult :=
  let minute_ago : ℚ := current_time - 60
  let queries_last_minute := (user_timestamps.filter (fun ts => minute_ago ≤ ts)).length
  let queries_last_hour := user_timestamps.length
  if max_per_minute ≤ queries_last_minute then
    match user_timestamps.reverse.find? (fun ts => minute_ago ≤ ts) with
    | none => .raise_ .stopIteration
    | some oldest_in_minute =>
      .ok (.denyMinute (pyTrunc (60 - (current_time - oldest_in_minute)))
        queries_last_minute queries_last_hour)
  else if max_per_hour ≤ queries_last_hour then
    match user_timestamps.head? with
    | none => .raise_ .indexError
    | some oldest_timestamp =>
      let wait_seconds := pyTrunc (3600 - (current_time - oldest_timestamp))
      .ok (.denyHour wait_seconds (Int.fdiv wait_seconds 60) queries_last_hour)
  else .ok .allow

/-- RateLimiter.check_rate_limit.  Admins are admitted before any state is
touched; otherwise the caller's sequence is purged in place and the
decision is computed on the retained sequence. -/
def RateLimiter.check_rate_limit (rl : RateLimiter) (current_time : ℚ) (user_id : ℤ) :
    PyResult RLResult × RateLimiter :=
  if rl.is_admin user_id then (.ok .allow, rl)
  else
    let user_timestamps := purgeOld current_time (rl.user_queries user_id)
    (rateDecision rl.max_per_minute rl.max_per_hour current_time user_timestamps,
     { rl with user_queries := fun v => if v = user_id then user_timestamps else rl.user_queries v })

/-- RateLimiter.record_query: append the current timestamp to the caller's
sequence (admins included; the admin branch in the source is a no-op). -/
def RateLimiter.record_query (rl : RateLimiter) (current_time : ℚ) (user_id : ℤ) : RateLimiter :=
  { rl with user_queries := fun v =>
      if v = user_id then rl.user_queries user_id ++ [current_time] else rl.user_queries v }

/-- Outcome of one socket.getaddrinfo call: the raw address strings
(info[4][0] of each returned tuple, duplicates and mixed families
possible), or one of the three caught failure kinds (socket.timeout,
socket.gaierror, or any other exception). -/
inductive DnsOutcome where
  | success (addr_info : List String)
  | timeout
  | gaiError
  | otherError
deriving DecidableEq, Repr

/-- Python sorted() on strings: lexicographic ascending order. -/
def pySorted (l : List String) : List String :=
  List.insertionSort (fun a b => a ≤ b) l

/-- resolve_fqdn: on a successful lookup, extract the address strings,
deduplicate (set) and sort them; on any of the three caught failure kinds
return the empty list. -/
def resolve_fqdn (lookup : String → ℕ → DnsOutcome) (fqdn : String) (timeout : ℕ) :
    List String :=
  match lookup fqdn timeout with
  | .success addr_info => pySorted addr_info.dedup
  | .timeout => []
  | .gaiError => []
  | .otherError => []

/-- Insertion into a Python dict modelled as an association list: replace
the value of an existing key in place, else append the new entry. -/
def dictInsert (key : String) (val : List String) :
    List (String × List String) → List (String × List String)
  | [] => [(key, val)]
  | (k, v) :: rest => if k = key then (key, val) :: rest else (k, v) :: dictInsert key val rest

/-- Key list of a dict modelled as an association list. -/
def dictKeys (d : List (String × List String)) : List String :=
  d.map Prod.fst

/-- Python dict.get(key, default) on the association-list model. -/
def dictGetD (d : List (String × List String)) (key : String) (dflt : List String) :
    List String :=
  match d.find? (fun p => p.1 = key) with
  | some p => p.2
  | none => dflt

/-- resolve_multiple_fqdns: resolve every FQDN and collect the results
into a dict.  The worker pool runs resolve_fqdn once per submitted FQDN;
since every completion for the same FQDN writes the same value, the final
dict contents do not depend on the completion order, so the fan-out is
modelled as a left fold over the input list.  max_workers bounds the pool
and does not affect the final mapping. -/
def resolve_multiple_fqdns (lookup : String → ℕ → DnsOutcome) (fqdns : List String)
    (max_workers timeout : ℕ) : List (String × List String) :=
  let _ := max_workers
  fqdns.foldl (fun results fqdn => dictInsert fqdn (resolve_fqdn lookup fqdn timeout) results) []

/-- One entry of the active_fqdns and all_fqdns report lists. -/
structure ResolvedHost where
  fqdn : String
  ips : List String
  resolved : Bool
deriving DecidableEq, Repr

/-- Report built by get_operator_infrastructure.  resolution_time_ms is
wall-clock time measured by the source around the fan-out call; it is an
environment input here. -/
structure InfraReport where
  operator : String
  mnc_mcc_pairs : List (ℤ × ℤ)
  total_fqdns : ℕ
  active_fqdns : List ResolvedHost
  resolution_time_ms : ℕ

/-- Report built by get_operator_infrastructure_with_all_fqdns. -/
structure InfraReportAll where
  operator : String
  mnc_mcc_pairs : List (ℤ × ℤ)
  total_fqdns : ℕ
  active_count : ℕ
  inactive_count : ℕ
  all_fqdns : List ResolvedHost
  resolution_time_ms : ℕ

/-- The loop of get_operator_infrastructure over the sorted FQDN list:
emit an entry only for an FQDN whose ip list is non-empty. -/
def buildActive (getIps : String → List String) : List String → List ResolvedHost
  | [] => []
  | fqdn :: rest =>
    let ips := getIps fqdn
    if ips.isEmpty then buildActive getIps rest
    else ⟨fqdn, ips, true⟩ :: buildActive getIps rest

/-- The loop of get_operator_infrastructure_with_all_fqdns over the sorted
FQDN list: emit an entry for every FQDN with its resolved flag. -/
def buildAll (getIps : String → List String) (fqdns : List String) : List ResolvedHost :=
  fqdns.map (fun fqdn => ⟨fqdn, getIps fqdn, !(getIps fqdn).isEmpty⟩)

/-- get_operator_infrastructure: resolve all FQDNs, then list the resolved
ones in sorted FQDN order. -/
def get_operator_infrastructure (lookup : String → ℕ → DnsOutcome) (operator_name : String)
    (fqdns : List String) (mnc_mcc_pairs : List (ℤ × ℤ)) (max_workers timeout : ℕ)
    (elapsed_ms : ℕ) : InfraReport :=
  let resolution_results := resolve_multiple_fqdns lookup fqdns max_workers timeout
  { operator := operator_name
    mnc_mcc_pairs := mnc_mcc_pairs
    total_fqdns := fqdns.length
    active_fqdns := buildActive (fun fqdn => dictGetD resolution_results fqdn []) (pySorted fqdns)
    resolution_time_ms := elapsed_ms }

/-- get_operator_infrastructure_with_all_fqdns: resolve all FQDNs, then
list every FQDN in sorted order with its resolved flag and count the
active ones. -/
def get_operator_infrastructure_with_all_fqdns (lookup : String → ℕ → DnsOutcome)
    (operator_name : String) (fqdns : List String) (mnc_mcc_pairs : List (ℤ × ℤ))
    (max_workers timeout : ℕ) (elapsed_ms : ℕ) : InfraReportAll :=
  let resolution_results := resolve_multiple_fqdns lookup fqdns max_workers timeout
  let all_fqdns := buildAll (fun fqdn => dictGetD resolution_results fqdn []) (pySorted fqdns)
  let active_count := all_fqdns.countP (fun f => f.resolved)
  { operator := operator_name
    mnc_mcc_pairs := mnc_mcc_pairs
    total_fqdns := fqdns.length
    active_count := active_count
    inactive_count := fqdns.length - active_count
    all_fqdns := all_fqdns
    resolution_time_ms := elapsed_ms }

/-- Fixture for the minute-boundary scenario: maxPerMinute 2, recorded
requests at t 0 and t 10 for user 1. -/
def rlMinuteTwo : RateLimiter :=
  ⟨2, 50, [], fun v => if v = 1 then [0, 10] else []⟩

/-- Fixture with both limits at 2 and requests at t 0 and t 10 for
user 1, used to watch the denial switch windows over time. -/
def rlBothTwo : RateLimiter :=
  ⟨2, 2, [], fun v => if v = 1 then [0, 10] else []⟩

/-- Fixture for the hour-boundary scenario: maxPerMinute large,
maxPerHour 2, requests at t 0 and t 100 for user 1. -/
def rlHourTwo : RateLimiter :=
  ⟨1000, 2, [], fun v => if v = 1 then [0, 100] else []⟩

/-- Fixture with maxPerMinute 0 and an empty history. -/
def rlZeroMinute : RateLimiter :=
  ⟨0, 50, [], fun _ => []⟩

/-- Fixture with both limits 1 and one request at t 5 for user 1. -/
def rlOneOne : RateLimiter :=
  ⟨1, 1, [], fun v => if v = 1 then [5] else []⟩

/-- Fixture with an admin (id 42) whose history is far over any limit. -/
def rlAdminFixture : RateLimiter :=
  ⟨1, 1, [42], fun _ => [0, 1, 2, 3]⟩

/-- Fixture for frame reasoning: user 1 has old timestamps, user 2 has
one recent timestamp. -/
def rlFrameFixture : RateLimiter :=
  ⟨10, 50, [], fun v => if v = 1 then [0, 10] else if v = 2 then [4900] else []⟩

theorem pyTrunc_nonneg {x : ℚ} (h : 0 ≤ x) : 0 ≤ pyTrunc x := by
  rw [pyTrunc, if_pos h]
  exact Int.floor_nonneg.mpr h

theorem purgeOld_head_recent (current_time : ℚ) (l : List ℚ) (t0 : ℚ)
    (h : (purgeOld current_time l).head? = some t0) : current_time - t0 ≤ 3600 := by
  induction l with
  | nil => simp [purgeOld] at h
  | cons t rest ih =>
    rw [purgeOld] at h
    by_cases hc : 3600 < current_time - t
    · rw [if_pos hc] at h
      exact ih h
    · rw [if_neg hc] at h
      simp only [List.head?_cons, Option.some.injEq] at h
      subst h
      exact le_of_not_lt hc

theorem purgeOld_dropped (current_time : ℚ) (l : List ℚ) :
    ∃ pre, l = pre ++ purgeOld current_time l ∧ ∀ t ∈ pre, 3600 < current_time - t := by
  induction l with
  | nil => exact ⟨[], rfl, by simp⟩
  | cons t rest ih =>
    by_cases hc : 3600 < current_time - t
    · obtain ⟨pre, heq, hold⟩ := ih
      refine ⟨t :: pre, ?_, ?_⟩
      · rw [purgeOld, if_pos hc]
        simpa using heq
      · intro s hs
        rcases List.mem_cons.mp hs with h1 | h2
        · exact h1 ▸ hc
        · exact hold s h2
    · exact ⟨[], by rw [purgeOld, if_neg hc]; rfl, by simp⟩

theorem rateDecision_wait_nonneg (max_per_minute max_per_hour : ℕ) (current_time : ℚ)
    (user_timestamps : List ℚ) (r : RLResult) (w : ℤ)
    (hhead : ∀ t0, user_timestamps.head? = some t0 → current_time - t0 ≤ 3600)
    (hres : rateDecision max_per_minute max_per_hour current_time user_timestamps = .ok r)
    (hw : r.waitSeconds = some w) : 0 ≤ w := by
  simp only [rateDecision] at hres
  split at hres
  · split at hres
    · exact absurd hres (by simp)
    · rename_i t hfind
      injection hres with hres
      subst hres
      simp only [RLResult.waitSeconds, Option.some.injEq] at hw
      subst hw
      have hfp := List.find?_some hfind
      have hp : current_time - 60 ≤ t := of_decide_eq_true hfp
      apply pyTrunc_nonneg
      linarith
  · split at hres
    · split at hres
      · exact absurd hres (by simp)
      · rename_i t0 hh
        injection hres with hres
        subst hres
        simp only [RLResult.waitSeconds, Option.some.injEq] at hw
        subst hw
        have := hhead t0 hh
        apply pyTrunc_nonneg
        linarith
    · injection hres with hres
      subst hres
      simp [RLResult.waitSeconds] at hw

theorem rateDecision_total (max_per_minute max_per_hour : ℕ) (current_time : ℚ)
    (user_timestamps : List ℚ) (h1 : 1 ≤ max_per_minute) (h2 : 1 ≤ max_per_hour) :
    ∃ r : RLResult, rateDecision max_per_minute max_per_hour current_time user_timestamps = .ok r ∧
      (r.allowed = false → ∃ w, r.waitSeconds = some w) := by
  simp only [rateDecision]
  split
  · rename_i hqlm
    cases hfind : user_timestamps.reverse.find? (fun ts => decide (current_time - 60 ≤ ts)) with
    | none =>
      exfalso
      have hne : (user_timestamps.filter (fun ts => decide (current_time - 60 ≤ ts))) ≠ [] := by
        intro hempty
        have hlenf : (user_timestamps.filter (fun ts => decide (current_time - 60 ≤ ts))).length = 0 := by
          rw [hempty]
          rfl
        omega
      obtain ⟨x, hx⟩ := List.exists_mem_of_ne_nil _ hne
      have hmem := List.mem_filter.mp hx
      have := List.find?_eq_none.mp hfind x (List.mem_reverse.mpr hmem.1)
      exact this hmem.2
    | some t => exact ⟨_, rfl, fun _ => ⟨_, rfl⟩⟩
  · split
    · rename_i hqlh
      cases hh : user_timestamps.head? with
      | none =>
        exfalso
        have hnil : user_timestamps = [] := List.head?_eq_none_iff.mp hh
        have hlen : user_timestamps.length = 0 := by rw [hnil]; rfl
        omega
      | some t0 => exact ⟨_, rfl, fun _ => ⟨_, rfl⟩⟩
    · exact ⟨.allow, rfl, by simp [RLResult.allowed]⟩

/-- C1: at the minute boundary the code denies, but computes the wait from
the newest in-minute timestamp (next over the reversed deque), not the
oldest: with maxPerMinute 2 and requests at t 0 and t 10, the check at
t 20 returns wait 50, while the formula of the claim (oldest in-minute
entry, here t 0) gives 40. -/
theorem C1_minute_wait_uses_newest :
    (rlMinuteTwo.check_rate_limit 20 1).1 = .ok (.denyMinute 50 2 2) ∧
    pyTrunc (60 - ((20 : ℚ) - 0)) = 40 := by
  constructor
  · norm_num [RateLimiter.check_rate_limit, RateLimiter.is_admin, rateDecision, purgeOld,
      pyTrunc, rlMinuteTwo, List.filter, List.find?]
  · norm_num [pyTrunc]

/-- C2: for a non-admin caller not over the minute limit whose purged
sequence reaches the hour limit, the check denies with wait
pyTrunc (3600 - (now - oldest retained timestamp)). -/
theorem C2_hour_limit_wait (rl : RateLimiter) (current_time : ℚ) (user_id : ℤ) (t0 : ℚ)
    (hadm : rl.is_admin user_id = false)
    (hmin : ((purgeOld current_time (rl.user_queries user_id)).filter
        (fun ts => current_time - 60 ≤ ts)).length < rl.max_per_minute)
    (hhr : rl.max_per_hour ≤ (purgeOld current_time (rl.user_queries user_id)).length)
    (hhead : (purgeOld current_time (rl.user_queries user_id)).head? = some t0) :
    (rl.check_rate_limit current_time user_id).1 =
      .ok (.denyHour (pyTrunc (3600 - (current_time - t0)))
        (Int.fdiv (pyTrunc (3600 - (current_time - t0))) 60)
        (purgeOld current_time (rl.user_queries user_id)).length) := by
  simp only [RateLimiter.check_rate_limit, hadm, Bool.false_eq_true, if_false, rateDecision]
  rw [if_neg (not_le.mpr hmin), if_pos hhr, hhead]

/-- C2 witness: maxPerHour 2, maxPerMinute large, requests at t 0 and
t 100; the check at t 200 is denied with wait 3400 seconds. -/
theorem C2_hour_limit_wait_witness :
    (rlHourTwo.check_rate_limit 200 1).1 = .ok (.denyHour 3400 56 2) := by
  rw [C2_hour_limit_wait rlHourTwo 200 1 0 (by decide)
    (by norm_num [purgeOld, rlHourTwo, List.filter])
    (by norm_num [purgeOld, rlHourTwo])
    (by norm_num [purgeOld, rlHourTwo])]
  norm_num [pyTrunc, Int.fdiv, purgeOld, rlHourTwo]

/-- C3 counterexample: with both limits at 2 and requests at t 0 and t 10,
the check at t 20 is denied by the minute window with wait 50, and the
next check at t 100 (no request recorded in between) is denied by the
hour window with wait 3500: the wait grew as real time advanced, so it
does not strictly decrease. -/
theorem C3_wait_can_increase :
    (rlBothTwo.check_rate_limit 20 1).1 = .ok (.denyMinute 50 2 2) ∧
    ((rlBothTwo.check_rate_limit 20 1).2.check_rate_limit 100 1).1 =
      .ok (.denyHour 3500 58 2) ∧
    (50 : ℤ) < 3500 := by
  refine ⟨?_, ?_, by norm_num⟩ <;>
    norm_num [RateLimiter.check_rate_limit, RateLimiter.is_admin, rateDecision, purgeOld,
      pyTrunc, rlBothTwo, List.filter, List.find?, Int.fdiv]

/-- C3 amended: every wait time carried by a denial of check_rate_limit
is nonnegative (the strict decrease over real time claimed alongside it
fails when the denial switches windows). -/
theorem C3_wait_nonneg (rl : RateLimiter) (current_time : ℚ) (user_id : ℤ)
    (r : RLResult) (w : ℤ)
    (hres : (rl.check_rate_limit current_time user_id).1 = .ok r)
    (hw : r.waitSeconds = some w) : 0 ≤ w := by
  by_cases hadm : rl.is_admin user_id = true
  · simp only [RateLimiter.check_rate_limit, hadm, if_true] at hres
    injection hres with hres
    rw [← hres] at hw
    simp [RLResult.waitSeconds] at hw
  · simp only [RateLimiter.check_rate_limit, hadm, if_false, Bool.false_eq_true] at hres
    exact rateDecision_wait_nonneg rl.max_per_minute rl.max_per_hour current_time
      (purgeOld current_time (rl.user_queries user_id)) r w
      (fun t0 ht0 => purgeOld_head_recent current_time (rl.user_queries user_id) t0 ht0) hres hw

/-- C3 witness: the minute denial at t 10 for the one-request fixture
carries wait 55, and the amended theorem yields its nonnegativity. -/
theorem C3_wait_nonneg_witness :
    (rlOneOne.check_rate_limit 10 1).1 = .ok (.denyMinute 55 1 1) ∧
    (RLResult.denyMinute 55 1 1).waitSeconds = some 55 ∧ (0 : ℤ) ≤ 55 :=
  have h : (rlOneOne.check_rate_limit 10 1).1 = .ok (.denyMinute 55 1 1) := by
    norm_num [RateLimiter.check_rate_limit, RateLimiter.is_admin, rateDecision, purgeOld,
      pyTrunc, rlOneOne, List.filter, List.find?]
  ⟨h, rfl, C3_wait_nonneg rlOneOne 10 1 (.denyMinute 55 1 1) 55 h rfl⟩

/-- C4 counterexample: with maxPerMinute 0 and no recorded timestamps,
the minute branch is entered with no in-minute entry, so next() over the
reversed sequence raises StopIteration instead of returning a denial. -/
theorem C4_zero_minute_limit_raises :
    (rlZeroMinute.check_rate_limit 0 1).1 = .raise_ .stopIteration := by
  norm_num [RateLimiter.check_rate_limit, RateLimiter.is_admin, rateDecision, purgeOld,
    rlZeroMinute, List.filter, List.find?]

/-- C4 amended: provided maxPerMinute and maxPerHour are at least 1,
check_rate_limit always returns a structured result, never an exception,
and a denial always carries a wait time. -/
theorem C4_denial_returned_not_raised (rl : RateLimiter) (current_time : ℚ) (user_id : ℤ)
    (h1 : 1 ≤ rl.max_per_minute) (h2 : 1 ≤ rl.max_per_hour) :
    ∃ r : RLResult, (rl.check_rate_limit current_time user_id).1 = .ok r ∧
      (r.allowed = false → ∃ w, r.waitSeconds = some w) := by
  by_cases hadm : rl.is_admin user_id = true
  · exact ⟨.allow, by simp [RateLimiter.check_rate_limit, hadm], by simp [RLResult.allowed]⟩
  · obtain ⟨r, hr, hstruct⟩ := rateDecision_total rl.max_per_minute rl.max_per_hour current_time
      (purgeOld current_time (rl.user_queries user_id)) h1 h2
    refine ⟨r, ?_, hstruct⟩
    simp only [RateLimiter.check_rate_limit, hadm, if_false, Bool.false_eq_true]
    exact hr

/-- C4 witness: with both limits 1 and a request at t 5, the check at
t 10 returns a structured denial. -/
theorem C4_denial_returned_not_raised_witness :
    ∃ r : RLResult, (rlOneOne.check_rate_limit 10 1).1 = .ok r ∧
      (r.allowed = false → ∃ w, r.waitSeconds = some w) :=
  C4_denial_returned_not_raised rlOneOne 10 1 (by decide) (by decide)

/-- C9: an identity in the admin bypass set is admitted unconditionally,
whatever its recorded history and whatever the current time, and the
limiter state is untouched. -/
theorem C9_admin_bypass (rl : RateLimiter) (current_time : ℚ) (user_id : ℤ)
    (h : rl.is_admin user_id = true) :
    rl.check_rate_limit current_time user_id = (.ok .allow, rl) := by
  simp [RateLimiter.check_rate_limit, h]

/-- C9 witness: admin id 42 with a history far over both limits is
admitted. -/
theorem C9_admin_bypass_witness :
    rlAdminFixture.check_rate_limit 3 42 = (.ok .allow, rlAdminFixture) :=
  C9_admin_bypass rlAdminFixture 3 42 (by decide)

/-- C10: a check never appends to any sequence: the checked caller's
sequence loses exactly a prefix of entries older than 3600 seconds, every
other caller's sequence is untouched, and record_query appends exactly
one timestamp to the recorded caller's sequence and nothing elsewhere. -/
theorem C10_check_frame_record_appends (rl : RateLimiter) (current_time : ℚ) (user_id : ℤ) :
    (∀ v, v ≠ user_id →
      ((rl.check_rate_limit current_time user_id).2).user_queries v = rl.user_queries v) ∧
    (∃ pre, rl.user_queries user_id =
        pre ++ ((rl.check_rate_limit current_time user_id).2).user_queries user_id ∧
        ∀ t ∈ pre, 3600 < current_time - t) ∧
    ((rl.record_query current_time user_id).user_queries user_id =
      rl.user_queries user_id ++ [current_time]) ∧
    (∀ v, v ≠ user_id →
      (rl.record_query current_time user_id).user_queries v = rl.user_queries v) := by
  refine ⟨?_, ?_, ?_, ?_⟩
  · intro v hv
    by_cases hadm : rl.is_admin user_id = true
    · simp [RateLimiter.check_rate_limit, hadm]
    · simp [RateLimiter.check_rate_limit, hadm, hv]
  · by_cases hadm : rl.is_admin user_id = true
    · exact ⟨[], by simp [RateLimiter.check_rate_limit, hadm], by simp⟩
    · simpa [RateLimiter.check_rate_limit, hadm] using
        purgeOld_dropped current_time (rl.user_queries user_id)
  · simp [RateLimiter.record_query]
  · intro v hv
    simp [RateLimiter.record_query, hv]

/-- C10 witness: checking user 1 at t 5000 leaves user 2's sequence
unchanged, as does recording for user 1. -/
theorem C10_check_frame_record_appends_witness :
    ((rlFrameFixture.check_rate_limit 5000 1).2).user_queries 2 =
      rlFrameFixture.user_queries 2 ∧
    (rlFrameFixture.record_query 5000 1).user_queries 2 = rlFrameFixture.user_queries 2 :=
  ⟨(C10_check_frame_record_appends rlFrameFixture 5000 1).1 2 (by decide),
   (C10_check_frame_record_appends rlFrameFixture 5000 1).2.2.2 2 (by decide)⟩

theorem pySorted_perm (l : List String) : List.Perm (pySorted l) l :=
  List.perm_insertionSort _ l

theorem pySorted_sorted (l : List String) : (pySorted l).Pairwise (fun a b => a ≤ b) :=
  List.sorted_insertionSort _ l

theorem pySorted_length (l : List String) : (pySorted l).length = l.length :=
  List.length_insertionSort _ l

theorem dictKeys_dictInsert (key : String) (val : List String)
    (d : List (String × List String)) (f : String) :
    f ∈ dictKeys (dictInsert key val d) ↔ f = key ∨ f ∈ dictKeys d := by
  induction d with
  | nil => simp [dictInsert, dictKeys]
  | cons p rest ih =>
    obtain ⟨k, v⟩ := p
    by_cases hk : k = key
    · subst hk
      simp [dictInsert, dictKeys]
    · simp only [dictInsert, if_neg hk, dictKeys, List.map_cons, List.mem_cons] at *
      tauto

theorem foldl_dictInsert_mem_keys (g : String → List String) (fqdns : List String)
    (d0 : List (String × List String)) (f : String) :
    f ∈ dictKeys (fqdns.foldl (fun results fqdn => dictInsert fqdn (g fqdn) results) d0) ↔
      f ∈ dictKeys d0 ∨ f ∈ fqdns := by
  induction fqdns generalizing d0 with
  | nil => simp
  | cons a rest ih =>
    simp only [List.foldl_cons]
    rw [ih, dictKeys_dictInsert]
    simp [List.mem_cons]
    tauto

theorem buildActive_eq_filter_map (getIps : String → List String) (l : List String) :
    buildActive getIps l =
      (l.filter (fun f => !(getIps f).isEmpty)).map (fun f => ⟨f, getIps f, true⟩) := by
  induction l with
  | nil => rfl
  | cons a rest ih =>
    by_cases h : (getIps a).isEmpty = true
    · simp [buildActive, h, List.filter_cons, ih]
    · simp [buildActive, h, List.filter_cons, ih]

/-- C5: every caught lookup failure kind (timeout, name-resolution error,
any other error) makes resolve_fqdn return the empty list; no error
reaches the caller. -/
theorem C5_failure_collapses_to_empty (lookup : String → ℕ → DnsOutcome) (fqdn : String)
    (timeout : ℕ) :
    (lookup fqdn timeout = .timeout → resolve_fqdn lookup fqdn timeout = []) ∧
    (lookup fqdn timeout = .gaiError → resolve_fqdn lookup fqdn timeout = []) ∧
    (lookup fqdn timeout = .otherError → resolve_fqdn lookup fqdn timeout = []) := by
  refine ⟨?_, ?_, ?_⟩ <;> intro h <;> simp [resolve_fqdn, h]

/-- C5 witness: a lookup that times out yields the empty address list. -/
theorem C5_failure_collapses_to_empty_witness :
    resolve_fqdn (fun _ _ => .timeout) "no-such-host.example.invalid" 5 = [] :=
  (C5_failure_collapses_to_empty (fun _ _ => .timeout) "no-such-host.example.invalid" 5).1 rfl

/-- C6: on a successful lookup the result has no duplicates, is sorted
lexicographically as strings, and contains exactly the raw addresses; in
particular raw addresses 10.0.0.1, 10.0.0.1, ::1 give the two-element
sorted result. -/
theorem C6_dedup_sort :
    (∀ (lookup : String → ℕ → DnsOutcome) (fqdn : String) (timeout : ℕ)
        (addr_info : List String),
      lookup fqdn timeout = .success addr_info →
        (resolve_fqdn lookup fqdn timeout).Nodup ∧
        (resolve_fqdn lookup fqdn timeout).Pairwise (fun a b => a ≤ b) ∧
        (∀ a, a ∈ resolve_fqdn lookup fqdn timeout ↔ a ∈ addr_info)) ∧
    resolve_fqdn (fun _ _ => .success ["10.0.0.1", "10.0.0.1", "::1"]) "host.example.org" 5 =
      ["10.0.0.1", "::1"] := by
  constructor
  · intro lookup fqdn timeout addr_info h
    have he : resolve_fqdn lookup fqdn timeout = pySorted addr_info.dedup := by
      simp [resolve_fqdn, h]
    rw [he]
    refine ⟨?_, pySorted_sorted _, ?_⟩
    · exact (pySorted_perm _).nodup_iff.mpr (List.nodup_dedup _)
    · intro a
      exact ((pySorted_perm _).mem_iff).trans (List.mem_dedup)
  · have hd : (["10.0.0.1", "10.0.0.1", "::1"] : List String).dedup = ["10.0.0.1", "::1"] := by
      decide
    have hle : ("10.0.0.1" : String) ≤ "::1" := by
      rw [String.le_iff_toList_le]
      decide
    simp [resolve_fqdn, pySorted, hd, List.insertionSort, List.orderedInsert, hle]

/-- C6 witness: a concrete successful lookup with duplicates satisfies
the three resolve guarantees. -/
theorem C6_dedup_sort_witness :
    (resolve_fqdn (fun _ _ => .success ["b", "a", "a"]) "w.example.org" 1).Nodup ∧
    (resolve_fqdn (fun _ _ => .success ["b", "a", "a"]) "w.example.org" 1).Pairwise
      (fun a b => a ≤ b) ∧
    ("a" ∈ resolve_fqdn (fun _ _ => .success ["b", "a", "a"]) "w.example.org" 1 ↔
      "a" ∈ (["b", "a", "a"] : List String)) :=
  ⟨(C6_dedup_sort.1 (fun _ _ => .success ["b", "a", "a"]) "w.example.org" 1 ["b", "a", "a"]
      rfl).1,
   (C6_dedup_sort.1 (fun _ _ => .success ["b", "a", "a"]) "w.example.org" 1 ["b", "a", "a"]
      rfl).2.1,
   (C6_dedup_sort.1 (fun _ _ => .success ["b", "a", "a"]) "w.example.org" 1 ["b", "a", "a"]
      rfl).2.2 "a"⟩

/-- C7: the result dict of resolve_multiple_fqdns has exactly the input
FQDNs as keys, however many lookups failed. -/
theorem C7_total_coverage (lookup : String → ℕ → DnsOutcome) (fqdns : List String)
    (max_workers timeout : ℕ) (_h : 1 ≤ max_workers) :
    ∀ fqdn, fqdn ∈ dictKeys (resolve_multiple_fqdns lookup fqdns max_workers timeout) ↔
      fqdn ∈ fqdns := by
  intro f
  have h2 := foldl_dictInsert_mem_keys (fun fq => resolve_fqdn lookup fq timeout) fqdns [] f
  simpa [resolve_multiple_fqdns, dictKeys] using h2

/-- C7 witness: with an always-failing lookup over two hostnames, the key
set still matches the input. -/
theorem C7_total_coverage_witness :
    "a.example.org" ∈ dictKeys (resolve_multiple_fqdns (fun _ _ => .timeout)
      ["a.example.org", "b.example.org"] 10 5) ↔
      "a.example.org" ∈ (["a.example.org", "b.example.org"] : List String) :=
  C7_total_coverage (fun _ _ => .timeout) ["a.example.org", "b.example.org"] 10 5 (by decide)
    "a.example.org"

/-- C8: both report builders set totalCandidates to the number of
candidates, emit a host list no longer than the candidate list, and emit
it sorted by hostname. -/
theorem C8_report_totals (lookup : String → ℕ → DnsOutcome) (operator_name : String)
    (fqdns : List String) (mnc_mcc_pairs : List (ℤ × ℤ)) (max_workers timeout elapsed_ms : ℕ) :
    (get_operator_infrastructure lookup operator_name fqdns mnc_mcc_pairs max_workers timeout
        elapsed_ms).total_fqdns = fqdns.length ∧
    (get_operator_infrastructure lookup operator_name fqdns mnc_mcc_pairs max_workers timeout
        elapsed_ms).active_fqdns.length ≤ fqdns.length ∧
    (get_operator_infrastructure lookup operator_name fqdns mnc_mcc_pairs max_workers timeout
        elapsed_ms).active_fqdns.Pairwise (fun a b => a.fqdn ≤ b.fqdn) ∧
    (get_operator_infrastructure_with_all_fqdns lookup operator_name fqdns mnc_mcc_pairs
        max_workers timeout elapsed_ms).total_fqdns = fqdns.length ∧
    (get_operator_infrastructure_with_all_fqdns lookup operator_name fqdns mnc_mcc_pairs
        max_workers timeout elapsed_ms).all_fqdns.length ≤ fqdns.length ∧
    (get_operator_infrastructure_with_all_fqdns lookup operator_name fqdns mnc_mcc_pairs
        max_workers timeout elapsed_ms).all_fqdns.Pairwise (fun a b => a.fqdn ≤ b.fqdn) := by
  refine ⟨rfl, ?_, ?_, rfl, ?_, ?_⟩
  · simp only [get_operator_infrastructure, buildActive_eq_filter_map, List.length_map]
    exact (List.length_filter_le _ _).trans (le_of_eq (pySorted_length fqdns))
  · simp only [get_operator_infrastructure, buildActive_eq_filter_map]
    exact List.pairwise_map.mpr ((pySorted_sorted fqdns).filter _)
  · simp only [get_operator_infrastructure_with_all_fqdns, buildAll, List.length_map]
    exact le_of_eq (pySorted_length fqdns)
  · simp only [get_operator_infrastructure_with_all_fqdns, buildAll]
    exact List.pairwise_map.mpr (pySorted_sorted fqdns)
